import Mathlib

/-!
# Shallow embedding of the All Occasion Cards backend (src/backend/app.py)

This file embeds the data model and the request handlers of the Flask
backend as executable Lean definitions, and proves properties of them.

Modelling conventions:
* JSON documents are values of the inductive type `Json`; Python dicts keep
  their key order as association lists.
* Numeric card prices, rotations and price bounds are modelled as exact
  rationals (`ℚ`).  Python compares IEEE doubles; on the catalog's finite
  decimal literals the two orders agree, and the claims below are about the
  filtering algorithm, not about floating-point rounding.
* The response timestamps (`datetime.now()`) and log statements are
  side effects outside a shallow embedding and are omitted from the
  modelled response payloads.  The two values captured once at startup
  (the footer's copyright year and the metadata `last_updated` string)
  are passed in as parameters `year` and `now`.
* `APIError` exceptions become the `ApiResult.error status code` value of
  an `ApiResult`; a normal JSON response becomes `ApiResult.ok payload`.
-/

/-- A JSON-like document value, as produced by the backend's dict literals. -/
inductive Json where
  | str : String → Json
  | num : ℚ → Json
  | bool : Bool → Json
  | arr : List Json → Json
  | obj : List (String × Json) → Json

/-- Outcome of a request handler: a 200 payload, or an `APIError` carrying
an HTTP status code and a machine-readable error code string. -/
inductive ApiResult (α : Type) where
  | ok : α → ApiResult α
  | error : Nat → String → ApiResult α
deriving DecidableEq

/-- Returns `true` exactly on the 200 branch. -/
def ApiResult.isOk {α : Type} : ApiResult α → Bool
  | .ok _ => true
  | .error _ _ => false

/-- A catalog entry, translated field by field from the dict literals in
`WebsiteData._initialize_data` (gallery "cards"). -/
structure Card where
  id : Nat
  name : String
  category : String
  description : String
  price : ℚ
  image_url : String
  rotation : ℚ
  tags : List String
deriving DecidableEq

/-! The decimal literals of the card catalog, written as rationals in lowest
terms (`Rat.mk'`) so that the kernel can evaluate comparisons and equalities
on them inside `decide`; the bridging `example`s below each constant check it
equals the corresponding decimal literal of the source. -/

def q4_99 : ℚ := Rat.mk' 499 100 (by norm_num) (by norm_num)
def q5_99 : ℚ := Rat.mk' 599 100 (by norm_num) (by norm_num)
def q6_99 : ℚ := Rat.mk' 699 100 (by norm_num) (by norm_num)
def q3_99 : ℚ := Rat.mk' 399 100 (by norm_num) (by norm_num)
def q4_49 : ℚ := Rat.mk' 449 100 (by norm_num) (by norm_num)
def q2_5 : ℚ := Rat.mk' 5 2 (by norm_num) (by norm_num)
def qm1_8 : ℚ := Rat.mk' (-9) 5 (by norm_num) (by norm_num)
def q3_2 : ℚ := Rat.mk' 16 5 (by norm_num) (by norm_num)
def qm2_1 : ℚ := Rat.mk' (-21) 10 (by norm_num) (by norm_num)
def q1_5 : ℚ := Rat.mk' 3 2 (by norm_num) (by norm_num)
def qm0_8 : ℚ := Rat.mk' (-4) 5 (by norm_num) (by norm_num)


def card1 : Card :=
  { id := 1
    name := "Birthday Celebration"
    category := "birthday"
    description := "A vibrant birthday card with colorful balloons and confetti"
    price := q4_99
    image_url := "/images/cards/birthday-1.jpg"
    rotation := q2_5
    tags := ["birthday", "celebration", "colorful"] }

def card2 : Card :=
  { id := 2
    name := "Sympathy & Comfort"
    category := "sympathy"
    description := "A gentle sympathy card with soft floral design"
    price := q5_99
    image_url := "/images/cards/sympathy-1.jpg"
    rotation := qm1_8
    tags := ["sympathy", "comfort", "floral"] }

def card3 : Card :=
  { id := 3
    name := "Wedding Congratulations"
    category := "wedding"
    description := "An elegant wedding card with gold accents"
    price := q6_99
    image_url := "/images/cards/wedding-1.jpg"
    rotation := q3_2
    tags := ["wedding", "elegant", "gold"] }

def card4 : Card :=
  { id := 4
    name := "Thank You Note"
    category := "thank_you"
    description := "A heartfelt thank you card with handwritten style"
    price := q3_99
    image_url := "/images/cards/thank-you-1.jpg"
    rotation := qm2_1
    tags := ["thank_you", "handwritten", "heartfelt"] }

def card5 : Card :=
  { id := 5
    name := "Holiday Cheer"
    category := "holiday"
    description := "A festive holiday card with warm winter scenes"
    price := q4_99
    image_url := "/images/cards/holiday-1.jpg"
    rotation := q1_5
    tags := ["holiday", "festive", "winter"] }

def card6 : Card :=
  { id := 6
    name := "Get Well Soon"
    category := "get_well"
    description := "A cheerful get well card with bright flowers"
    price := q4_49
    image_url := "/images/cards/get-well-1.jpg"
    rotation := qm0_8
    tags := ["get_well", "cheerful", "flowers"] }

/-- Embeds `website_data.gallery["cards"]`, in declaration order. -/
def gallery_cards : List Card := [card1, card2, card3, card4, card5, card6]

/-- Embeds `website_data.gallery["categories"]`. -/
def gallery_categories : List String :=
  ["birthday", "sympathy", "wedding", "thank_you", "holiday", "get_well"]

/-- Embeds `website_data.header`. -/
def header : Json :=
  .obj [
    ("logo", .obj [
      ("text", .str "All Occasion Cards"),
      ("font_family", .str "Dancing Script"),
      ("font_size", .str "2rem")]),
    ("navigation", .arr [
      .obj [("id", .str "gallery"), ("text", .str "Gallery"), ("href", .str "#gallery")],
      .obj [("id", .str "about"), ("text", .str "About"), ("href", .str "#about")],
      .obj [("id", .str "contact"), ("text", .str "Contact"), ("href", .str "#contact")]])]

/-- Embeds `website_data.hero`. -/
def hero : Json :=
  .obj [
    ("title", .str "Handcrafted Cards for Every Occasion"),
    ("subtitle", .str "Bringing warmth and personality to your special moments with carefully crafted greeting cards"),
    ("background", .obj [
      ("type", .str "wood"),
      ("opacity", .num 0.1),
      ("color", .str "#8B4513")]),
    ("animation", .obj [
      ("duration", .num 0.8),
      ("delay", .num 0.2)])]

/-- Embeds `website_data.about`. -/
def about : Json :=
  .obj [
    ("title", .str "About Us"),
    ("content", .arr [
      .obj [("id", .str "intro"),
        ("text", .str "Welcome to our cozy corner of creativity! We're passionate about crafting beautiful, heartfelt greeting cards that bring warmth and joy to every occasion. Each card is carefully designed with love and attention to detail, making your special moments even more memorable.")],
      .obj [("id", .str "journey"),
        ("text", .str "Our journey began with a simple idea: to create cards that feel like they were made by a friend, not a factory. We believe that the perfect card can speak volumes and create lasting connections between people. That's why we pour our hearts into every design, ensuring that each card carries its own unique personality and charm.")],
      .obj [("id", .str "quality"),
        ("text", .str "Whether you're celebrating a birthday, expressing sympathy, or just want to brighten someone's day, we have a card that will help you convey your feelings perfectly. Each card is made with high-quality materials and designed to be treasured for years to come.")]]),
    ("animation", .obj [
      ("duration", .num 0.8),
      ("viewport_once", .bool true)])]

/-- JSON rendering of one catalog entry, as in the gallery "cards" literal. -/
def cardJson (c : Card) : Json :=
  .obj [
    ("id", .num (c.id : ℚ)),
    ("name", .str c.name),
    ("category", .str c.category),
    ("description", .str c.description),
    ("price", .num c.price),
    ("image_url", .str c.image_url),
    ("rotation", .num c.rotation),
    ("tags", .arr (c.tags.map Json.str))]

/-- Embeds `website_data.gallery`. -/
def gallery : Json :=
  .obj [
    ("title", .str "Our Collection"),
    ("cards", .arr (gallery_cards.map cardJson)),
    ("categories", .arr (gallery_categories.map Json.str)),
    ("animation", .obj [
      ("duration", .num 0.5),
      ("delay_increment", .num 0.1)])]

/-- Embeds `website_data.contact`. -/
def contact : Json :=
  .obj [
    ("title", .str "Get in Touch"),
    ("info", .arr [
      .obj [("id", .str "email"), ("type", .str "email"), ("icon", .str "FaEnvelope"),
        ("value", .str "hello@alloccasioncards.com"), ("label", .str "Email Address")],
      .obj [("id", .str "phone"), ("type", .str "phone"), ("icon", .str "FaPhone"),
        ("value", .str "(555) 123-4567"), ("label", .str "Phone Number")]]),
    ("social_media", .arr [
      .obj [("id", .str "instagram"), ("platform", .str "Instagram"),
        ("url", .str "https://instagram.com/alloccasioncards"), ("icon", .str "FaInstagram")],
      .obj [("id", .str "facebook"), ("platform", .str "Facebook"),
        ("url", .str "https://facebook.com/alloccasioncards"), ("icon", .str "FaFacebook")]]),
    ("business_hours", .obj [
      ("monday", .str "9:00 AM - 6:00 PM"),
      ("tuesday", .str "9:00 AM - 6:00 PM"),
      ("wednesday", .str "9:00 AM - 6:00 PM"),
      ("thursday", .str "9:00 AM - 6:00 PM"),
      ("friday", .str "9:00 AM - 6:00 PM"),
      ("saturday", .str "10:00 AM - 4:00 PM"),
      ("sunday", .str "Closed")])]

/-- Embeds `website_data.footer`; `year` is `datetime.now().year` captured at startup. -/
def footer (year : Nat) : Json :=
  .obj [
    ("copyright", .str ("Â© " ++ toString year ++ " All Occasion Cards. All rights reserved.")),
    ("links", .arr [
      .obj [("text", .str "Privacy Policy"), ("url", .str "/privacy")],
      .obj [("text", .str "Terms of Service"), ("url", .str "/terms")],
      .obj [("text", .str "Shipping Info"), ("url", .str "/shipping")]])]

/-- Embeds `website_data.metadata`; `now` is `datetime.now().isoformat()` captured at startup. -/
def metadata (now : String) : Json :=
  .obj [
    ("site_name", .str "All Occasion Cards"),
    ("description", .str "Handcrafted greeting cards for every special moment"),
    ("keywords", .arr [.str "greeting cards", .str "handcrafted", .str "personalized", .str "occasions"]),
    ("author", .str "All Occasion Cards Team"),
    ("version", .str "1.0.0"),
    ("last_updated", .str now)]

/-- Embeds `website_data.theme`. -/
def theme : Json :=
  .obj [
    ("colors", .obj [
      ("primary", .str "#4A5568"),
      ("secondary", .str "#F7FAFC"),
      ("text", .str "#2D3748"),
      ("background", .str "#FFFFFF"),
      ("paper", .str "#FEFEFE"),
      ("wood", .str "#8B4513")]),
    ("fonts", .obj [
      ("heading", .str "Dancing Script"),
      ("body", .str "Quicksand")]),
    ("border_radius", .obj [
      ("small", .str "4px"),
      ("medium", .str "8px"),
      ("large", .str "16px")]),
    ("shadows", .obj [
      ("subtle", .str "0 1px 3px rgba(0,0,0,0.1)"),
      ("medium", .str "0 4px 6px rgba(0,0,0,0.1)")])]

/-- Models `getattr(website_data, attrName, None)` restricted to the data
attributes; any other name yields `none`, matching the `None` default. -/
def websiteAttr (year : Nat) (now : String) : String → Option Json
  | "header" => some header
  | "hero" => some hero
  | "about" => some about
  | "gallery" => some gallery
  | "contact" => some contact
  | "footer" => some (footer year)
  | "metadata" => some (metadata now)
  | "theme" => some (theme)
  | _ => none

/-- The `valid_sections` list in `get_section_content`. -/
def valid_sections : List String :=
  ["header", "hero", "about", "gallery", "contact", "footer", "metadata", "theme"]

/-- Handler for `GET /api/content/<section>`: validate the section name,
then fetch the backing attribute from the store (modelled as a function so
that the defensive `SECTION_NOT_FOUND` branch is reachable, exactly as the
code handles a hypothetical absent attribute).  The `ok` payload is the
response's `data` field. -/
def get_section_content (store : String → Option Json) (sect : String) : ApiResult Json :=
  if sect ∉ valid_sections then
    .error 400 "INVALID_SECTION"
  else
    match store sect with
    | none => .error 404 "SECTION_NOT_FOUND"
    | some v => .ok v

/-- Handler for `GET /api/content`: the eight sections of the (always 200)
response, in response order. -/
def get_all_content (year : Nat) (now : String) : List (String × Json) :=
  [
    ("header", header),
    ("hero", hero),
    ("about", about),
    ("gallery", gallery),
    ("contact", contact),
    ("footer", footer year),
    ("metadata", metadata now),
    ("theme", theme)]


/-- Digit run check used by the float-string parser. -/
def allDigits (l : List Char) : Bool := l.all (fun c => c.isDigit)

/-- Value of a digit run, most significant first. -/
def digitsVal (l : List Char) : Nat := l.foldl (fun n c => 10 * n + (c.toNat - 48)) 0

/-- The finite-decimal fragment of Python's `float(str)`: an optional sign
followed by digits with at most one decimal point and at least one digit.
`none` models `float` raising `ValueError`.  Exponent notation,
`inf`/`nan`, digit-group underscores and surrounding whitespace (which
Python's `float` also accepts) are outside the modelled fragment; no claim
below depends on them. -/
def parseFloat (s : String) : Option ℚ :=
  let signBody : ℚ × List Char :=
    match s.data with
    | '-' :: rest => (-1, rest)
    | '+' :: rest => (1, rest)
    | l => (1, l)
  let sign := signBody.1
  let body := signBody.2
  let intPart := body.takeWhile (fun c => c ≠ '.')
  let rest := body.dropWhile (fun c => c ≠ '.')
  match rest with
  | [] =>
    if !body.isEmpty && allDigits body then
      some (sign * (digitsVal body : ℚ))
    else none
  | _ :: frac =>
    if (!intPart.isEmpty || !frac.isEmpty) && allDigits intPart && allDigits frac then
      some (sign * ((digitsVal intPart : ℚ) + (digitsVal frac : ℚ) / (10 : ℚ) ^ frac.length))
    else none

/-- Models `request.args.get(key, type=float)`: `none` when the parameter is
absent, and also when the conversion raises (werkzeug swallows the
`ValueError` and falls back to the `None` default). -/
def getFloatArg (o : Option String) : Option ℚ :=
  match o with
  | none => none
  | some s => parseFloat s

/-- Python's `str.split(',')` on the underlying character list: groups
between commas, keeping empty groups, never returning an empty list. -/
def splitOnComma : List Char → List (List Char)
  | [] => [[]]
  | c :: cs =>
    match splitOnComma cs with
    | [] => [[]]
    | g :: gs => if c = ',' then [] :: g :: gs else (c :: g) :: gs

/-- Computes `s.split(',')` for a Python string. -/
def pySplit (s : String) : List String :=
  (splitOnComma s.data).map List.asString

/-- Models `request.args.get('tags', '').split(',') if request.args.get('tags') else []`:
the tags parameter must be present and truthy (non-empty) to be split. -/
def parseTags (o : Option String) : List String :=
  match o with
  | none => []
  | some s => if s = "" then [] else pySplit s

/-- The guard `if tags and tags[0]:` — the parsed list is non-empty and its
first element is a truthy (non-empty) string. -/
def tagsTruthy (ts : List String) : Bool :=
  match ts with
  | [] => false
  | t :: _ => t != ""

/-- Per-request filter specification assembled from the query parameters
(`category` raw, price bounds after float conversion, tags after split). -/
structure FilterSpec where
  category : Option String := none
  min_price : Option ℚ := none
  max_price : Option ℚ := none
  tags : List String := []
deriving DecidableEq

/-- Translates `if category: cards = [card for card in cards if card["category"] == category]`.
A present-but-empty category string is falsy in Python, so it skips the filter. -/
def applyCategoryFilter (o : Option String) (l : List Card) : List Card :=
  match o with
  | some c => if c = "" then l else l.filter (fun card => card.category == c)
  | none => l

/-- Translates `if min_price is not None: cards = [card for card in cards if card["price"] >= min_price]`. -/
def applyMinPriceFilter (o : Option ℚ) (l : List Card) : List Card :=
  match o with
  | some m => l.filter (fun card => decide (m ≤ card.price))
  | none => l

/-- Translates `if max_price is not None: cards = [card for card in cards if card["price"] <= max_price]`. -/
def applyMaxPriceFilter (o : Option ℚ) (l : List Card) : List Card :=
  match o with
  | some m => l.filter (fun card => decide (card.price ≤ m))
  | none => l

/-- Translates `if tags and tags[0]: cards = [card for card in cards if any(tag in card["tags"] for tag in tags)]`. -/
def applyTagFilter (ts : List String) (l : List Card) : List Card :=
  if tagsTruthy ts then l.filter (fun card => ts.any (fun t => card.tags.contains t)) else l

/-- The filtering pipeline of `get_cards`, in the code's order: category,
then minimum price, then maximum price, then tags. -/
def filterCards (cards : List Card) (s : FilterSpec) : List Card :=
  applyTagFilter s.tags
    (applyMaxPriceFilter s.max_price
      (applyMinPriceFilter s.min_price
        (applyCategoryFilter s.category cards)))

/-- The `/api/cards` response payload (timestamp omitted); `fa_*` fields are
the `filters_applied` echo. -/
structure CardsResponse where
  cards : List Card
  total_count : Nat
  fa_category : Option String
  fa_min_price : Option ℚ
  fa_max_price : Option ℚ
  fa_tags : Option (List String)
deriving DecidableEq

/-- Response construction of `get_cards` after parameter parsing: filter,
count, and echo the applied filters (`tags` echoed only when truthy). -/
def cardsResponse (catalog : List Card) (category : Option String)
    (mn mx : Option ℚ) (tags : List String) : CardsResponse :=
  let result := filterCards catalog
    { category := category, min_price := mn, max_price := mx, tags := tags }
  { cards := result
    total_count := result.length
    fa_category := category
    fa_min_price := mn
    fa_max_price := mx
    fa_tags := if tagsTruthy tags then some tags else none }

/-- Raw query parameters of a `/api/cards` request (`none` = absent). -/
structure QueryParams where
  category : Option String := none
  min_price : Option String := none
  max_price : Option String := none
  tags : Option String := none
deriving DecidableEq

/-- Handler for `GET /api/cards`: parse the query parameters, filter the
static catalog, and return the payload.  No parameter value can raise, so
the handler always returns a 200 result. -/
def get_cards (q : QueryParams) : ApiResult CardsResponse :=
  .ok (cardsResponse gallery_cards q.category
        (getFloatArg q.min_price) (getFloatArg q.max_price) (parseTags q.tags))

/-- Handler for `GET /api/cards/<int:card_id>`: first catalog entry with a
matching id (`next(...)`), else a 404 `CARD_NOT_FOUND` error. -/
def get_card_by_id (card_id : Nat) : ApiResult Card :=
  match gallery_cards.find? (fun c => c.id == card_id) with
  | some card => .ok card
  | none => .error 404 "CARD_NOT_FOUND"


/-! ## Predicate view of the filtering pipeline -/

/-- The category predicate as actually applied: skipped (always true) when
the field is absent or the empty string. -/
def categoryPred (o : Option String) (card : Card) : Bool :=
  match o with
  | some c => if c = "" then true else card.category == c
  | none => true

/-- The minimum-price predicate as actually applied. -/
def minPricePred (o : Option ℚ) (card : Card) : Bool :=
  match o with
  | some m => decide (m ≤ card.price)
  | none => true

/-- The maximum-price predicate as actually applied. -/
def maxPricePred (o : Option ℚ) (card : Card) : Bool :=
  match o with
  | some m => decide (card.price ≤ m)
  | none => true

/-- The tag predicate as actually applied: skipped unless the tag list is
non-empty with a non-empty first element. -/
def tagPred (ts : List String) (card : Card) : Bool :=
  if tagsTruthy ts then ts.any (fun t => card.tags.contains t) else true

/-- Conjunction of the four predicates as `get_cards` applies them. -/
def appliedPred (s : FilterSpec) (card : Card) : Bool :=
  categoryPred s.category card && minPricePred s.min_price card &&
    maxPricePred s.max_price card && tagPred s.tags card

/-- Reference algorithm written from the specification's words, for
comparison with the code's `filterCards`: one stable list-filter of the
conjunction of the predicates whose spec field is present — category
exact-match, `min_price ≤ price`, `price ≤ max_price`, and tag
intersection with "empty/absent means no tag filter". -/
def specFilter (cards : List Card) (s : FilterSpec) : List Card :=
  cards.filter (fun card =>
    (match s.category with
     | some c => card.category == c
     | none => true) &&
    (match s.min_price with
     | some m => decide (m ≤ card.price)
     | none => true) &&
    (match s.max_price with
     | some m => decide (card.price ≤ m)
     | none => true) &&
    (if s.tags.isEmpty then true else s.tags.any (fun t => card.tags.contains t)))

/-! ## Sanity checks on the embedded definitions -/

example : q4_99 = 4.99 := by rw [q4_99, Rat.mk'_eq_divInt, Rat.divInt_eq_div]; norm_num
example : q5_99 = 5.99 := by rw [q5_99, Rat.mk'_eq_divInt, Rat.divInt_eq_div]; norm_num
example : q6_99 = 6.99 := by rw [q6_99, Rat.mk'_eq_divInt, Rat.divInt_eq_div]; norm_num
example : q3_99 = 3.99 := by rw [q3_99, Rat.mk'_eq_divInt, Rat.divInt_eq_div]; norm_num
example : q4_49 = 4.49 := by rw [q4_49, Rat.mk'_eq_divInt, Rat.divInt_eq_div]; norm_num
example : q2_5 = 2.5 := by rw [q2_5, Rat.mk'_eq_divInt, Rat.divInt_eq_div]; norm_num
example : qm1_8 = -1.8 := by rw [qm1_8, Rat.mk'_eq_divInt, Rat.divInt_eq_div]; norm_num
example : q3_2 = 3.2 := by rw [q3_2, Rat.mk'_eq_divInt, Rat.divInt_eq_div]; norm_num
example : qm2_1 = -2.1 := by rw [qm2_1, Rat.mk'_eq_divInt, Rat.divInt_eq_div]; norm_num
example : q1_5 = 1.5 := by rw [q1_5, Rat.mk'_eq_divInt, Rat.divInt_eq_div]; norm_num
example : qm0_8 = -0.8 := by rw [qm0_8, Rat.mk'_eq_divInt, Rat.divInt_eq_div]; norm_num

example : parseFloat "4.99" = some 4.99 := by
  have h : parseFloat "4.99" =
      some (1 * ((digitsVal ['4'] : ℚ) + (digitsVal ['9', '9'] : ℚ) / (10 : ℚ) ^ (2 : Nat))) := rfl
  have h4 : digitsVal ['4'] = 4 := rfl
  have h99 : digitsVal ['9', '9'] = 99 := rfl
  rw [h, h4, h99]; norm_num
example : parseFloat "abc" = none := by decide
example : parseFloat "" = none := by decide
example : parseFloat "-2" = some (-2) := by
  have h : parseFloat "-2" = some (-1 * (digitsVal ['2'] : ℚ)) := rfl
  have h2 : digitsVal ['2'] = 2 := rfl
  rw [h, h2]; norm_num
example : pySplit ",birthday" = ["", "birthday"] := by decide
example : pySplit "birthday,celebration" = ["birthday", "celebration"] := by decide
example : parseTags (some "") = [] := by decide
example : (filterCards gallery_cards { category := some "birthday" }).length = 1 := by decide
example : filterCards gallery_cards { min_price := some 5 } = [card2, card3] := by decide
example : filterCards gallery_cards { tags := ["birthday", "celebration"] } = [card1] := by decide
example : filterCards gallery_cards { category := some "" } = gallery_cards := by decide
example : filterCards gallery_cards { tags := ["", "birthday"] } = gallery_cards := by decide
example : get_card_by_id 999 = .error 404 "CARD_NOT_FOUND" := by decide


theorem applyCategoryFilter_eq (o : Option String) (l : List Card) :
    applyCategoryFilter o l = l.filter (categoryPred o) := by
  cases o with
  | none => exact (List.filter_true l).symm.trans (List.filter_congr fun x _ => rfl)
  | some c =>
    by_cases hc : c = ""
    · subst hc
      show l = l.filter (categoryPred (some ""))
      exact (List.filter_true l).symm.trans (List.filter_congr fun x _ => rfl)
    · show (if c = "" then l else l.filter (fun card => card.category == c)) =
        l.filter (categoryPred (some c))
      rw [if_neg hc]
      exact List.filter_congr fun x _ => by simp [categoryPred, hc]

theorem applyMinPriceFilter_eq (o : Option ℚ) (l : List Card) :
    applyMinPriceFilter o l = l.filter (minPricePred o) := by
  cases o with
  | none => exact (List.filter_true l).symm.trans (List.filter_congr fun x _ => rfl)
  | some m => exact List.filter_congr fun x _ => rfl

theorem applyMaxPriceFilter_eq (o : Option ℚ) (l : List Card) :
    applyMaxPriceFilter o l = l.filter (maxPricePred o) := by
  cases o with
  | none => exact (List.filter_true l).symm.trans (List.filter_congr fun x _ => rfl)
  | some m => exact List.filter_congr fun x _ => rfl

theorem applyTagFilter_eq (ts : List String) (l : List Card) :
    applyTagFilter ts l = l.filter (tagPred ts) := by
  by_cases ht : tagsTruthy ts
  · show (if tagsTruthy ts then l.filter (fun card => ts.any (fun t => card.tags.contains t))
      else l) = l.filter (tagPred ts)
    rw [if_pos ht]
    exact List.filter_congr fun x _ => by simp [tagPred, ht]
  · show (if tagsTruthy ts then l.filter (fun card => ts.any (fun t => card.tags.contains t))
      else l) = l.filter (tagPred ts)
    rw [if_neg ht]
    exact (List.filter_true l).symm.trans (List.filter_congr fun x _ => by simp [tagPred, ht])

/-- The sequential filtering pipeline equals one stable `List.filter` of the
conjunction of the applied predicates. -/
theorem filterCards_eq_filter (cards : List Card) (s : FilterSpec) :
    filterCards cards s = cards.filter (appliedPred s) := by
  rw [filterCards, applyCategoryFilter_eq, applyMinPriceFilter_eq,
    applyMaxPriceFilter_eq, applyTagFilter_eq]
  simp only [List.filter_filter]
  refine List.filter_congr fun card _ => ?_
  cases h1 : categoryPred s.category card <;>
    cases h2 : minPricePred s.min_price card <;>
      cases h3 : maxPricePred s.max_price card <;>
        cases h4 : tagPred s.tags card <;>
          simp [appliedPred, h1, h2, h3, h4]

/-! ## Helper lemmas about tag-string splitting and skipped tag filters -/

theorem splitOnComma_ne_nil (l : List Char) : splitOnComma l ≠ [] := by
  cases l with
  | nil => simp [splitOnComma]
  | cons c cs =>
    unfold splitOnComma
    cases h : splitOnComma cs with
    | nil => simp
    | cons g gs => by_cases hc : c = ',' <;> simp [hc]

theorem pySplit_comma_cons (t : String) : pySplit ("," ++ t) = "" :: pySplit t := by
  unfold pySplit
  have hd : ("," ++ t).data = ',' :: t.data := rfl
  rw [hd]
  cases h : splitOnComma t.data with
  | nil => exact absurd h (splitOnComma_ne_nil t.data)
  | cons g gs =>
    unfold splitOnComma
    rw [h]
    simp [List.asString]

theorem cardsResponse_tags_skip (catalog : List Card) (cat : Option String)
    (mn mx : Option ℚ) (ts : List String) (h : tagsTruthy ts = false) :
    cardsResponse catalog cat mn mx ts = cardsResponse catalog cat mn mx [] := by
  have h1 : filterCards catalog { category := cat, min_price := mn, max_price := mx, tags := ts } =
      filterCards catalog { category := cat, min_price := mn, max_price := mx, tags := [] } := by
    simp only [filterCards, applyTagFilter]
    rw [h]
    simp [tagsTruthy]
  simp only [cardsResponse]
  rw [h1, h]
  simp [tagsTruthy]

/-! ## Claim theorems -/

/-- C1, counterexample: a `/api/cards` request with the malformed
non-numeric `min_price` string `"abc"` does NOT signal an `InvalidParameter`
error; the handler returns a 200 result containing the whole catalog with
the price filter silently skipped (and `min_price` echoed as absent),
refuting the claim that filtering is preceded by a 400 error. -/
theorem malformed_min_price_returns_ok :
    get_cards { category := none, min_price := some "abc", max_price := none, tags := none } =
      .ok { cards := gallery_cards, total_count := 6, fa_category := none,
            fa_min_price := none, fa_max_price := none, fa_tags := none } := by
  rfl

/-- C1, amended: a malformed (unparseable) `min_price` or `max_price` string
is silently treated as if the parameter were absent — the corresponding
price predicate is skipped, the parameter is echoed as absent, and the
request still succeeds (HTTP 200); no error is signalled. -/
theorem malformed_price_param_silently_ignored (s : String) (h : parseFloat s = none)
    (cat other tg : Option String) :
    get_cards { category := cat, min_price := some s, max_price := other, tags := tg } =
      get_cards { category := cat, min_price := none, max_price := other, tags := tg } ∧
    get_cards { category := cat, min_price := other, max_price := some s, tags := tg } =
      get_cards { category := cat, min_price := other, max_price := none, tags := tg } ∧
    (get_cards { category := cat, min_price := some s, max_price := other, tags := tg }).isOk
      = true := by
  refine ⟨?_, ?_, rfl⟩ <;> simp [get_cards, getFloatArg, h]

/-- C1, witness for the amended claim at the malformed string `"12.5.7"`. -/
theorem malformed_price_param_silently_ignored_witness :
    get_cards { category := none, min_price := some "12.5.7", max_price := none, tags := none } =
      get_cards { category := none, min_price := none, max_price := none, tags := none } :=
  (malformed_price_param_silently_ignored "12.5.7" (by decide) none none none).1

/-- C2, counterexample: with the `FilterSpec` whose category field is
present but equal to the empty string, the code-level filter skips the
category predicate (Python truthiness) and returns the whole catalog, while
the specification's reference filter applies the exact-match predicate and
returns the empty list — so the pipeline is not the stable filter of the
conjunction of the predicates that are merely present. -/
theorem filter_differs_from_spec_reference_on_empty_category :
    filterCards gallery_cards { category := some "" } ≠
      specFilter gallery_cards { category := some "" } := by
  decide

/-- C2, amended: `get_cards` applies the four predicates conjunctively in
the fixed order category, `min_price`, `max_price`, tags; a predicate is
skipped (treated as always-true) when its spec field is absent and also
when it is Python-falsy — category equal to the empty string, or a tag list
that is empty or has an empty first element.  The result is one stable
`List.filter` of the conjunction of the predicates actually applied, so
surviving cards keep their original relative order. -/
theorem filter_is_stable_conjunctive_filter (cards : List Card) (s : FilterSpec) :
    filterCards cards s = cards.filter (appliedPred s) ∧
    (filterCards cards s).Sublist cards := by
  refine ⟨filterCards_eq_filter cards s, ?_⟩
  rw [filterCards_eq_filter]
  exact List.filter_sublist cards

/-- C3: with both price bounds present, the filter keeps exactly the cards
with `min_price ≤ price ≤ max_price` (both bounds inclusive); when no card
satisfies both bounds — including the legal case `min_price > max_price` —
the response carries the empty list and `total_count = 0`; and no
`/api/cards` request yields an error. -/
theorem price_range_filter_exact (cards : List Card) (mn mx : ℚ) :
    filterCards cards { min_price := some mn, max_price := some mx } =
      cards.filter (fun card => decide (mn ≤ card.price) && decide (card.price ≤ mx)) ∧
    ((∀ card ∈ cards, ¬ (mn ≤ card.price ∧ card.price ≤ mx)) →
      (cardsResponse cards none (some mn) (some mx) []).cards = [] ∧
      (cardsResponse cards none (some mn) (some mx) []).total_count = 0) ∧
    (∀ q : QueryParams, (get_cards q).isOk = true) := by
  have hmain : filterCards cards { min_price := some mn, max_price := some mx } =
      cards.filter (fun card => decide (mn ≤ card.price) && decide (card.price ≤ mx)) := by
    rw [filterCards_eq_filter]
    exact List.filter_congr fun card _ => by
      simp [appliedPred, categoryPred, minPricePred, maxPricePred, tagPred, tagsTruthy]
  refine ⟨hmain, fun h => ?_, fun q => rfl⟩
  have hnil : filterCards cards { min_price := some mn, max_price := some mx } = [] := by
    rw [hmain, List.filter_eq_nil_iff]
    intro card hc
    simpa using h card hc
  constructor
  · show filterCards cards { min_price := some mn, max_price := some mx } = []
    exact hnil
  · show (filterCards cards { min_price := some mn, max_price := some mx }).length = 0
    rw [hnil]
    rfl

/-- C3, witness at the legal empty range `min_price = 5 > 4 = max_price` on
the static catalog: empty result, `total_count = 0`. -/
theorem price_range_filter_exact_witness :
    (cardsResponse gallery_cards none (some 5) (some 4) []).cards = [] ∧
    (cardsResponse gallery_cards none (some 5) (some 4) []).total_count = 0 :=
  (price_range_filter_exact gallery_cards 5 4).2.1 (by decide)

/-- C4, counterexample: the requested tag list `["", "birthday"]` is
non-empty, yet card 2 (whose tags share no element with it) is included in
the filtered result, because `if tags and tags[0]:` skips the tag filter
when the first element is the empty string — refuting the claim that, for
every non-empty requested tag list, inclusion is equivalent to a non-empty
intersection. -/
theorem tag_filter_not_intersection_on_empty_first_tag :
    (["", "birthday"] : List String) ≠ [] ∧
    card2 ∈ filterCards gallery_cards { tags := ["", "birthday"] } ∧
    ¬ ∃ t ∈ card2.tags, t ∈ (["", "birthday"] : List String) := by
  decide

/-- C4, amended: whenever the requested tag list is applied at all — it is
non-empty and its first element is a non-empty string — a card is included
exactly when at least one of the card's tags is an exact, case-sensitive
match of some element of the requested list. -/
theorem tag_filter_intersection_when_applied (cards : List Card) (ts : List String)
    (h : tagsTruthy ts = true) (card : Card) :
    card ∈ filterCards cards { tags := ts } ↔
      card ∈ cards ∧ ∃ t ∈ card.tags, t ∈ ts := by
  rw [filterCards_eq_filter, List.mem_filter]
  have hp : appliedPred { tags := ts } card = ts.any (fun t => card.tags.contains t) := by
    simp [appliedPred, categoryPred, minPricePred, maxPricePred, tagPred, h]
  rw [hp]
  simp only [List.any_eq_true, List.contains_iff_exists_mem_beq, beq_iff_eq]
  constructor
  · rintro ⟨hmem, t, hts, u, hu, rfl⟩
    exact ⟨hmem, t, hu, hts⟩
  · rintro ⟨hmem, t, hu, hts⟩
    exact ⟨hmem, t, hts, t, hu, rfl⟩

/-- C4, witness for the amended claim: requesting tags
`["birthday", "celebration"]` includes card 1, matching the spec scenario. -/
theorem tag_filter_intersection_when_applied_witness :
    card1 ∈ filterCards gallery_cards { tags := ["birthday", "celebration"] } :=
  (tag_filter_intersection_when_applied gallery_cards ["birthday", "celebration"]
    (by decide) card1).mpr (by decide)

/-- C5: filtering is idempotent — applying the pipeline a second time with
the same `FilterSpec` returns the same sequence of cards. -/
theorem filter_idempotent (cards : List Card) (s : FilterSpec) :
    filterCards (filterCards cards s) s = filterCards cards s := by
  rw [filterCards_eq_filter cards s,
    filterCards_eq_filter (cards.filter (appliedPred s)) s, List.filter_filter]
  exact List.filter_congr fun card _ => Bool.and_self _

/-- C6: card-by-id lookup is a linear scan by id equality —
`get_card_by_id 999` yields the 404 `CARD_NOT_FOUND` error,
`get_card_by_id 1` returns the catalog's id-1 card unchanged, and in
general the lookup errors exactly when no catalog card has the requested
id. -/
theorem card_lookup_by_id :
    get_card_by_id 999 = .error 404 "CARD_NOT_FOUND" ∧
    get_card_by_id 1 = .ok card1 ∧
    ∀ n : Nat, (get_card_by_id n = .error 404 "CARD_NOT_FOUND" ↔
      ∀ card ∈ gallery_cards, card.id ≠ n) := by
  refine ⟨by decide, by decide, fun n => ?_⟩
  unfold get_card_by_id
  cases h : gallery_cards.find? (fun c => c.id == n) with
  | none =>
    constructor
    · intro _ card hc
      simpa using List.find?_eq_none.mp h card hc
    · intro _
      rfl
  | some c =>
    constructor
    · intro habs
      exact ApiResult.noConfusion habs
    · intro hall
      have hpc : c.id = n := by simpa using List.find?_some h
      exact absurd hpc (hall c (List.mem_of_find?_eq_some h))

/-- C7: for every content store and section name, `get_section_content`
signals the 400 `INVALID_SECTION` error when the name is outside the
enumerated section set, signals the 404 `SECTION_NOT_FOUND` error when the
name is in the set but the backing value is absent, and returns the
section's document when the name is in the set and the value is present. -/
theorem section_lookup_validation (store : String → Option Json) (sect : String) :
    (sect ∉ valid_sections → get_section_content store sect = .error 400 "INVALID_SECTION") ∧
    (sect ∈ valid_sections → store sect = none →
      get_section_content store sect = .error 404 "SECTION_NOT_FOUND") ∧
    (∀ v : Json, sect ∈ valid_sections → store sect = some v →
      get_section_content store sect = .ok v) := by
  unfold get_section_content
  refine ⟨fun h => ?_, fun h hn => ?_, fun v h hv => ?_⟩
  · rw [if_pos h]
  · rw [if_neg (not_not_intro h), hn]
  · rw [if_neg (not_not_intro h), hv]

/-- C7, witness: an unknown name yields the 400 error on the static store;
a recognized name over an (artificially) empty store yields the 404 error;
a recognized name over the static store yields its document. -/
theorem section_lookup_validation_witness :
    get_section_content (websiteAttr 2024 "startup") "bogus" = .error 400 "INVALID_SECTION" ∧
    get_section_content (fun _ => none) "hero" = .error 404 "SECTION_NOT_FOUND" ∧
    get_section_content (websiteAttr 2024 "startup") "hero" = .ok hero :=
  ⟨(section_lookup_validation (websiteAttr 2024 "startup") "bogus").1 (by decide),
   (section_lookup_validation (fun _ => none) "hero").2.1 (by decide) rfl,
   (section_lookup_validation (websiteAttr 2024 "startup") "hero").2.2 hero (by decide) rfl⟩

/-- C8: `get_section_content` on `"header"` returns the full header
document, and it is the same document embedded under the `"header"` key of
the full-content response of `get_all_content`, for any startup year and
timestamp. -/
theorem header_section_matches_all_content (year : Nat) (now : String) :
    get_section_content (websiteAttr year now) "header" = .ok header ∧
    (get_all_content year now).lookup "header" = some header := by
  exact ⟨rfl, rfl⟩

/-- C9: every card in the static catalog has a category belonging to the
catalog's separately declared category list; the catalog and the category
list are process-lifetime constants of the embedding (no handler writes any
state), so the invariant holds in every reachable state. -/
theorem catalog_categories_invariant :
    gallery_cards.all (fun card => gallery_categories.contains card.category) = true := by
  decide

/-- C10 (implicit behavior): for every `/api/cards` request whose `tags`
parameter begins with a comma, the split produces an empty first element,
so the `if tags and tags[0]:` guard fails: the tag filter is skipped
entirely (the response equals that of the same request without a `tags`
parameter) and the `filters_applied` echo reports `tags` as absent — even
when later comma-separated elements are non-empty. -/
theorem tags_beginning_with_comma_skip_filter (t : String) (cat mn mx : Option String) :
    parseTags (some ("," ++ t)) = "" :: pySplit t ∧
    get_cards { category := cat, min_price := mn, max_price := mx, tags := some ("," ++ t) } =
      get_cards { category := cat, min_price := mn, max_price := mx, tags := none } ∧
    (cardsResponse gallery_cards cat (getFloatArg mn) (getFloatArg mx)
      (parseTags (some ("," ++ t)))).fa_tags = none := by
  have hne : ("," ++ t) ≠ "" := by
    intro habs
    have hd : ("," ++ t).data = ',' :: t.data := rfl
    rw [habs] at hd
    exact List.noConfusion hd
  have hp : parseTags (some ("," ++ t)) = "" :: pySplit t := by
    simp [parseTags, hne, pySplit_comma_cons]
  have hskip : tagsTruthy ("" :: pySplit t) = false := by simp [tagsTruthy]
  refine ⟨hp, ?_, ?_⟩
  · simp only [get_cards]
    rw [hp]
    have hn : parseTags none = ([] : List String) := rfl
    rw [hn]
    exact congrArg ApiResult.ok
      (cardsResponse_tags_skip gallery_cards cat (getFloatArg mn) (getFloatArg mx)
        ("" :: pySplit t) hskip)
  · rw [hp]
    simp [cardsResponse, hskip]
